import Mathlib

/-!
# Verification of the Roblox game scraper (crawler.py)

Shallow embedding of `crawler.py` (class `RobloxGameScraper`). The two HTTP
endpoints are modelled as response oracles indexed by call number; `time.sleep`
is not modelled (it has no effect on data flow). Python dicts with fixed key
sets are modelled as structures; a key read with `.get(k, default)` becomes an
`Option` field with the default applied at record construction. Python
truthiness tests (`if game_data["UniverseId"]:`, `if not sorts_page_token:`)
are modelled on the possible value types (`Option Int`, `Option String`).
Unbounded loops (the pagination `while` loop, the recursive 429 retry) take a
fuel argument; `none` means the loop has not exited within the given fuel.
A Python `None` returned where a list is expected (the fall-through return of
`fetch_game_details`) is an inner `none`, and iterating over it (a `TypeError`
crash in `scrape_games`) makes the whole run `none`.
-/

namespace Crawler

/-- One game dict built by `fetch_game_ids_from_api` (keys "UniverseId",
"Name", "PlayerCount", "Upvotes", "Downvotes"). -/
structure BasicRecord where
  UniverseId : Option Int
  Name : String
  PlayerCount : Int
  Upvotes : Int
  Downvotes : Int
deriving Repr, DecidableEq

/-- One game object inside a sort of the listing endpoint's JSON payload. -/
structure ListGame where
  universeId : Option Int
  name : Option String
  playerCount : Option Int
  totalUpVotes : Option Int
  totalDownVotes : Option Int
deriving Repr, DecidableEq

/-- One sort group of the listing payload (only its "games" list is read). -/
structure SortGroup where
  games : List ListGame
deriving Repr, DecidableEq

/-- Parsed JSON payload of the listing endpoint. An absent "sorts" key is the
empty list (the code reads it with `data.get("sorts", [])`). -/
structure ListPayload where
  sorts : List SortGroup
  nextSortsPageToken : Option String
deriving Repr, DecidableEq

/-- One HTTP response of the listing endpoint: status code, and `none` for a
body on which `response.json()` raises. -/
structure ListResponse where
  status : Nat
  body : Option ListPayload
deriving Repr, DecidableEq

/-- Python truthiness of the value stored under "UniverseId"
(`if game_data["UniverseId"]:`): `None` and `0` are falsy. -/
def truthyId : Option Int → Bool
  | none => false
  | some n => n != 0

/-- Python truthiness of the pagination token (`if not sorts_page_token:`):
`None` and the empty string are falsy. -/
def truthyToken : Option String → Bool
  | none => false
  | some t => t != ""

/-- The dict built for one game item (crawler.py lines 45-51), defaults
applied exactly as the `.get` calls do. -/
def mkBasicRecord (g : ListGame) : BasicRecord where
  UniverseId := g.universeId
  Name := g.name.getD "N/A"
  PlayerCount := g.playerCount.getD 0
  Upvotes := g.totalUpVotes.getD 0
  Downvotes := g.totalDownVotes.getD 0

/-- The game items of one listing payload in iteration order
(`for sort in sorts: for game in sort.get("games", [])`). -/
def itemsOf (p : ListPayload) : List ListGame :=
  p.sorts.flatMap (fun s => s.games)

/-- The records appended while processing one listing payload (lines 42-53):
one per item whose "UniverseId" value is truthy. -/
def pageRecords (p : ListPayload) : List BasicRecord :=
  (itemsOf p).filterMap
    (fun g => if truthyId g.universeId then some (mkBasicRecord g) else none)

/-- The `while len(all_game_data) < max_games` loop of
`fetch_game_ids_from_api` (lines 21-65). `call` numbers the requests so the
oracle can vary by page; `acc` is `all_game_data`. `none` = fuel exhausted
before the loop exited. -/
def fetchIdsLoop (oracle : Nat → ListResponse) (max_games : Nat) :
    Nat → Nat → List BasicRecord → Option (List BasicRecord)
  | 0, _, _ => none
  | fuel + 1, call, acc =>
    if acc.length < max_games then
      if (oracle call).status != 200 then
        some acc
      else
        match (oracle call).body with
        | none => some acc
        | some data =>
          if truthyToken data.nextSortsPageToken then
            fetchIdsLoop oracle max_games fuel (call + 1) (acc ++ pageRecords data)
          else
            some (acc ++ pageRecords data)
    else
      some acc

/-- `fetch_game_ids_from_api(session_id, max_games)` (lines 13-67): run the
pagination loop from an empty accumulator, then truncate with
`all_game_data[:max_games]`. -/
def fetch_game_ids_from_api (oracle : Nat → ListResponse) (max_games fuel : Nat) :
    Option (List BasicRecord) :=
  (fetchIdsLoop oracle max_games fuel 0 []).map (fun l => l.take max_games)

/-- The nested "creator" object of a detail payload item. -/
structure Creator where
  name : Option String
deriving Repr, DecidableEq

/-- One game object in the detail endpoint's "data" list. -/
structure DetailGame where
  id : Option Int
  name : Option String
  genre : Option String
  created : Option String
  updated : Option String
  maxPlayers : Option Int
  playabilityStatus : Option String
  isExperimental : Option Bool
  price : Option Int
  visits : Option Int
  creator : Option Creator
  thumbnailUrl : Option String
deriving Repr, DecidableEq

/-- Parsed JSON payload of the detail endpoint. `hasData = none` models a JSON
object without a "data" key (`if "data" in data:` is false). -/
structure DetailPayload where
  hasData : Option (List DetailGame)
deriving Repr, DecidableEq

/-- One HTTP response of the detail endpoint: status code, and `none` for a
body on which `response.json()` raises. -/
structure DetailResponse where
  status : Nat
  body : Option DetailPayload
deriving Repr, DecidableEq

/-- The dict built for one detail item (lines 89-102), defaults applied
exactly as the `.get` calls do. `MaxPlayers = none` stands for the string
sentinel "N/A" that `game.get("maxPlayers", "N/A")` yields when the key is
absent. -/
structure DetailRecord where
  UniverseId : Option Int
  Name : String
  Genre : String
  CreatedDate : String
  UpdatedDate : String
  MaxPlayers : Option Int
  PlayabilityStatus : String
  IsExperimental : Bool
  Price : Int
  Visits : Int
  Developer : String
  ThumbnailUrl : String
deriving Repr, DecidableEq

/-- Mapping of one detail payload item to its dict (lines 89-102).
`Developer` follows `game.get("creator", {}).get("name", "N/A")`. -/
def mkDetailRecord (g : DetailGame) : DetailRecord where
  UniverseId := g.id
  Name := g.name.getD "N/A"
  Genre := g.genre.getD "N/A"
  CreatedDate := g.created.getD "N/A"
  UpdatedDate := g.updated.getD "N/A"
  MaxPlayers := g.maxPlayers
  PlayabilityStatus := g.playabilityStatus.getD "N/A"
  IsExperimental := g.isExperimental.getD false
  Price := g.price.getD 0
  Visits := g.visits.getD 0
  Developer := ((g.creator.map Creator.name).getD none).getD "N/A"
  ThumbnailUrl := g.thumbnailUrl.getD "N/A"

/-- The `try`/`except` block of `fetch_game_details` on a 200 response
(lines 85-107): `response.json()` raising (`body = none`) is caught and
returns `[]`; a parsed body whose dict has a "data" key maps every entry;
a parsed body without a "data" key falls off the end of the function, an
implicit Python `return None` (modelled as `none`). -/
def parseDetailBody : Option DetailPayload → Option (List DetailRecord)
  | none => some []
  | some data =>
    match data.hasData with
    | none => none
    | some games => some (games.map mkDetailRecord)

/-- `fetch_game_details(universe_ids)` (lines 69-107). The oracle gives the
response to the `call`-th request. Returns the log of id batches sent (one
entry per request, always `universe_ids` itself since the 429 branch recurses
on the same batch) and the Python return value: `some records` for a list,
`none` for the implicit `return None` taken when a 200 body parses but has no
"data" key. The outer `none` = fuel exhausted while retrying on 429. -/
def fetch_game_details (oracle : Nat → DetailResponse)
    (universe_ids : List (Option Int)) :
    Nat → Nat → Option (List (List (Option Int)) × Option (List DetailRecord))
  | 0, _ => none
  | fuel + 1, call =>
    if (oracle call).status == 429 then
      (fetch_game_details oracle universe_ids fuel (call + 1)).map
        (fun r => (universe_ids :: r.1, r.2))
    else if (oracle call).status != 200 then
      some ([universe_ids], some [])
    else
      some ([universe_ids], parseDetailBody (oracle call).body)

/-- The merged dict: the detail dict after
`detail.update({"PlayerCount": ..., "Upvotes": ..., "Downvotes": ...})`
(lines 125-129); the three added keys do not collide with any detail key. -/
structure MergedRecord where
  UniverseId : Option Int
  Name : String
  Genre : String
  CreatedDate : String
  UpdatedDate : String
  MaxPlayers : Option Int
  PlayabilityStatus : String
  IsExperimental : Bool
  Price : Int
  Visits : Int
  Developer : String
  ThumbnailUrl : String
  PlayerCount : Int
  Upvotes : Int
  Downvotes : Int
deriving Repr, DecidableEq

/-- The inner `for basic in game_data: if basic["UniverseId"] ==
detail["UniverseId"]: ... break` scan (lines 123-131): the first basic record
with matching id wins; no match appends nothing. -/
def mergeDetail (game_data : List BasicRecord) (detail : DetailRecord) :
    Option MergedRecord :=
  match game_data.find? (fun basic => basic.UniverseId == detail.UniverseId) with
  | none => none
  | some basic =>
    some { UniverseId := detail.UniverseId, Name := detail.Name,
           Genre := detail.Genre, CreatedDate := detail.CreatedDate,
           UpdatedDate := detail.UpdatedDate, MaxPlayers := detail.MaxPlayers,
           PlayabilityStatus := detail.PlayabilityStatus,
           IsExperimental := detail.IsExperimental, Price := detail.Price,
           Visits := detail.Visits, Developer := detail.Developer,
           ThumbnailUrl := detail.ThumbnailUrl,
           PlayerCount := basic.PlayerCount, Upvotes := basic.Upvotes,
           Downvotes := basic.Downvotes }

/-- `batch_size = 50` (line 114). -/
def batch_size : Nat := 50

/-- The slices `universe_ids[i:i+batch_size]` for
`i in range(0, len(universe_ids), batch_size)` (lines 117-118). -/
def batches : List (Option Int) → List (List (Option Int))
  | [] => []
  | x :: xs => (x :: xs.take (batch_size - 1)) :: batches (xs.drop (batch_size - 1))
termination_by l => l.length
decreasing_by
  simp only [List.length_drop, List.length_cons]
  omega

/-- The batch loop of `scrape_games` (lines 117-132), abstracted over the
result of `fetch_game_details` per batch (`fetch b = none` models the Python
`None` return, on which `for detail in batch_data:` raises `TypeError` and
aborts the run). Returns the log of batches fetched and `games_data`. -/
def scrapeGo (fetch : List (Option Int) → Option (List DetailRecord))
    (game_data : List BasicRecord) :
    List (List (Option Int)) →
      Option (List (List (Option Int)) × List MergedRecord)
  | [] => some ([], [])
  | b :: bs =>
    match fetch b with
    | none => none
    | some batch_data =>
      (scrapeGo fetch game_data bs).map
        (fun r => (b :: r.1, batch_data.filterMap (mergeDetail game_data) ++ r.2))

/-- `scrape_games(game_data)` (lines 109-134): extract
`universe_ids = [game["UniverseId"] for game in game_data]`, batch them, and
run the merge loop. -/
def scrape_games (fetch : List (Option Int) → Option (List DetailRecord))
    (game_data : List BasicRecord) :
    Option (List (List (Option Int)) × List MergedRecord) :=
  scrapeGo fetch game_data (batches (game_data.map (fun g => g.UniverseId)))

/-!
## CSV serialization (`save_to_csv`, lines 136-142)

`df.to_csv(file_name, index=False)` is modelled cell-wise: a header row from
the dict keys in insertion order, one comma-separated row per record, minimal
quoting (a cell is wrapped in double quotes, with inner quotes doubled, only
when it contains a comma, a quote, or a line break), each row terminated by a
newline. Cells are `List Char`; numeric formatting is the decimal rendering of
the stored value.
-/

/-- Characters that force a cell to be quoted under minimal quoting. -/
def csvSpecial (c : Char) : Bool :=
  c == ',' || c == '"' || c == '\n' || c == '\r'

/-- Whether a cell must be quoted. -/
def needsQuoting (s : List Char) : Bool := s.any csvSpecial

/-- Double every inner quote of a quoted cell's content. -/
def escapeChars : List Char → List Char
  | [] => []
  | c :: cs => if c == '"' then '"' :: '"' :: escapeChars cs else c :: escapeChars cs

/-- Serialize one cell, quoting only when needed. -/
def encodeCell (s : List Char) : List Char :=
  if needsQuoting s then '"' :: (escapeChars s ++ ['"']) else s

/-- Serialize one row: cells joined by commas. -/
def encodeRow : List (List Char) → List Char
  | [] => []
  | [c] => encodeCell c
  | c :: cs => encodeCell c ++ ',' :: encodeRow cs

/-- Serialize a whole file: each row followed by a newline. -/
def encodeCsv : List (List (List Char)) → List Char
  | [] => []
  | r :: rs => encodeRow r ++ '\n' :: encodeCsv rs

/-- State of the CSV re-parser: at the start of a field, inside an unquoted
field, inside a quoted field, or just after a quote inside a quoted field. -/
inductive CsvState where
  | atStart
  | inRaw
  | inQuoted
  | afterQuote
deriving Repr, DecidableEq

/-- One-pass CSV re-parser. `cell` is the field read so far, `row` the fields
of the current line, `rows` the finished lines. `none` on malformed input
(unterminated quoted field or final line, or a stray quote). -/
def parseCsvGo (mode : CsvState) (cell : List Char) (row : List (List Char))
    (rows : List (List (List Char))) :
    List Char → Option (List (List (List Char)))
  | [] =>
    match mode, row with
    | CsvState.atStart, [] => some rows
    | _, _ => none
  | c :: cs =>
    match mode with
    | CsvState.atStart =>
      if c == '"' then parseCsvGo CsvState.inQuoted [] row rows cs
      else if c == ',' then parseCsvGo CsvState.atStart [] (row ++ [[]]) rows cs
      else if c == '\n' then
        parseCsvGo CsvState.atStart [] [] (rows ++ [row ++ [[]]]) cs
      else parseCsvGo CsvState.inRaw [c] row rows cs
    | CsvState.inRaw =>
      if c == '"' then none
      else if c == ',' then parseCsvGo CsvState.atStart [] (row ++ [cell]) rows cs
      else if c == '\n' then
        parseCsvGo CsvState.atStart [] [] (rows ++ [row ++ [cell]]) cs
      else parseCsvGo CsvState.inRaw (cell ++ [c]) row rows cs
    | CsvState.inQuoted =>
      if c == '"' then parseCsvGo CsvState.afterQuote cell row rows cs
      else parseCsvGo CsvState.inQuoted (cell ++ [c]) row rows cs
    | CsvState.afterQuote =>
      if c == '"' then parseCsvGo CsvState.inQuoted (cell ++ [c]) row rows cs
      else if c == ',' then parseCsvGo CsvState.atStart [] (row ++ [cell]) rows cs
      else if c == '\n' then
        parseCsvGo CsvState.atStart [] [] (rows ++ [row ++ [cell]]) cs
      else none

/-- Re-parse a whole CSV file into its rows of cells. -/
def parseCsv (s : List Char) : Option (List (List (List Char))) :=
  parseCsvGo CsvState.atStart [] [] [] s

/-- Decimal rendering of an integer cell value (`str` in Python). -/
def renderInt (n : Int) : List Char := (toString n).data

/-- Rendering of the "UniverseId" cell: Python `None` serializes to an empty
cell. -/
def renderId : Option Int → List Char
  | none => []
  | some n => renderInt n

/-- Rendering of the "Max Players" cell: the absent-key sentinel is the
string "N/A". -/
def renderMaxPlayers : Option Int → List Char
  | none => "N/A".data
  | some n => renderInt n

/-- Rendering of a boolean cell (`str(True) = "True"`). -/
def renderBool (b : Bool) : List Char :=
  if b then "True".data else "False".data

/-- The header row: the merged dict's keys in insertion order. -/
def headerRow : List (List Char) :=
  ["UniverseId".data, "Name".data, "Genre".data, "Created Date".data,
   "Updated Date".data, "Max Players".data, "Playability Status".data,
   "Is Experimental".data, "Price".data, "Visits".data, "Developer".data,
   "Thumbnail URL".data, "PlayerCount".data, "Upvotes".data, "Downvotes".data]

/-- The row of cell values for one merged record, in header order. -/
def renderMerged (m : MergedRecord) : List (List Char) :=
  [renderId m.UniverseId, m.Name.data, m.Genre.data, m.CreatedDate.data,
   m.UpdatedDate.data, renderMaxPlayers m.MaxPlayers,
   m.PlayabilityStatus.data, renderBool m.IsExperimental, renderInt m.Price,
   renderInt m.Visits, m.Developer.data, m.ThumbnailUrl.data,
   renderInt m.PlayerCount, renderInt m.Upvotes, renderInt m.Downvotes]

/-- `save_to_csv(games_data)` (lines 136-142): the text written to the file. -/
def save_to_csv (games_data : List MergedRecord) : List Char :=
  encodeCsv (headerRow :: games_data.map renderMerged)

/-! ## Concrete fixtures used to instantiate the theorems -/

/-- A listing item whose "universeId" is the integer 0: non-null, but falsy
in Python. -/
def zeroIdGame : ListGame :=
  { universeId := some 0, name := none, playerCount := none,
    totalUpVotes := none, totalDownVotes := none }

/-- A one-page listing payload containing only `zeroIdGame`. -/
def zeroIdPayload : ListPayload :=
  { sorts := [{ games := [zeroIdGame] }], nextSortsPageToken := none }

/-- A listing oracle serving `zeroIdPayload` on every request. -/
def listOracleZero : Nat → ListResponse :=
  fun _ => { status := 200, body := some zeroIdPayload }

/-- A listing item with ordinary field values. -/
def game5 : ListGame :=
  { universeId := some 5, name := some "g", playerCount := some 3,
    totalUpVotes := some 4, totalDownVotes := some 5 }

/-- A one-page listing payload containing only `game5`. -/
def payload5 : ListPayload :=
  { sorts := [{ games := [game5] }], nextSortsPageToken := none }

/-- A listing oracle serving `payload5` on every request. -/
def listOracle5 : Nat → ListResponse :=
  fun _ => { status := 200, body := some payload5 }

/-- A listing oracle that always fails with HTTP 500. -/
def listOracleFail : Nat → ListResponse :=
  fun _ => { status := 500, body := none }

/-- A basic record with id 1. -/
def basicA : BasicRecord :=
  { UniverseId := some 1, Name := "alpha", PlayerCount := 10, Upvotes := 11,
    Downvotes := 12 }

/-- A basic record with id 2. -/
def basicB : BasicRecord :=
  { UniverseId := some 2, Name := "beta", PlayerCount := 20, Upvotes := 21,
    Downvotes := 22 }

/-- A detail-endpoint payload item with id 1. -/
def detGame1 : DetailGame :=
  { id := some 1, name := some "alpha", genre := some "RPG", created := none,
    updated := none, maxPlayers := some 8, playabilityStatus := none,
    isExperimental := none, price := some 25, visits := some 1000,
    creator := some { name := some "dev" }, thumbnailUrl := none }

/-- A detail record with id 1. -/
def detail1 : DetailRecord :=
  { UniverseId := some 1, Name := "alpha", Genre := "RPG",
    CreatedDate := "2020", UpdatedDate := "2021", MaxPlayers := some 8,
    PlayabilityStatus := "Playable", IsExperimental := false, Price := 0,
    Visits := 100, Developer := "dev", ThumbnailUrl := "url" }

/-- A detail record with id 2. -/
def detail2 : DetailRecord :=
  { UniverseId := some 2, Name := "beta", Genre := "Obby",
    CreatedDate := "2019", UpdatedDate := "2022", MaxPlayers := none,
    PlayabilityStatus := "Playable", IsExperimental := true, Price := 5,
    Visits := 200, Developer := "dev2", ThumbnailUrl := "url2" }

/-- `detail1` merged with `basicA`. -/
def merged1 : MergedRecord :=
  { UniverseId := some 1, Name := "alpha", Genre := "RPG",
    CreatedDate := "2020", UpdatedDate := "2021", MaxPlayers := some 8,
    PlayabilityStatus := "Playable", IsExperimental := false, Price := 0,
    Visits := 100, Developer := "dev", ThumbnailUrl := "url",
    PlayerCount := 10, Upvotes := 11, Downvotes := 12 }

/-- `detail2` merged with `basicB`. -/
def merged2 : MergedRecord :=
  { UniverseId := some 2, Name := "beta", Genre := "Obby",
    CreatedDate := "2019", UpdatedDate := "2022", MaxPlayers := none,
    PlayabilityStatus := "Playable", IsExperimental := true, Price := 5,
    Visits := 200, Developer := "dev2", ThumbnailUrl := "url2",
    PlayerCount := 20, Upvotes := 21, Downvotes := 22 }

/-- A detail fetcher whose response covers only id 1. -/
def fetchOnly1 : List (Option Int) → Option (List DetailRecord) :=
  fun _ => some [detail1]

/-- A detail fetcher returning id 2 before id 1 (reverse of discovery
order). -/
def fetchRev : List (Option Int) → Option (List DetailRecord) :=
  fun _ => some [detail2, detail1]

/-- A detail fetcher standing for the Python `None` return of
`fetch_game_details`. -/
def crashFetch : List (Option Int) → Option (List DetailRecord) :=
  fun _ => none

/-- A total detail fetcher returning an empty "data" list. -/
def fetchEmpty : List (Option Int) → Option (List DetailRecord) :=
  fun _ => some []

/-- 120 copies of `basicA`, for the batching property. -/
def gd120 : List BasicRecord := List.replicate 120 basicA

/-- A detail oracle that always fails with HTTP 500. -/
def detOracle500 : Nat → DetailResponse :=
  fun _ => { status := 500, body := none }

/-- A detail oracle returning 200 with a body `response.json()` rejects. -/
def detOracleBadJson : Nat → DetailResponse :=
  fun _ => { status := 200, body := none }

/-- A detail oracle returning 200 with a JSON body without a "data" key. -/
def detOracleNoData : Nat → DetailResponse :=
  fun _ => { status := 200, body := some { hasData := none } }

/-- A detail oracle answering 429 twice, then 200 with `detGame1`. -/
def detOracle429twice : Nat → DetailResponse :=
  fun k =>
    if k < 2 then { status := 429, body := none }
    else { status := 200, body := some { hasData := some [detGame1] } }

/-- A detail oracle that always answers 200 with an empty data list. -/
def detOracle200 : Nat → DetailResponse :=
  fun _ => { status := 200, body := some { hasData := some [] } }

/-- A detail oracle that always answers 429. -/
def detOracle429 : Nat → DetailResponse :=
  fun _ => { status := 429, body := none }

/-! ## Round-trip lemmas for the CSV encoder and re-parser -/

theorem csvSpecial_false {c : Char} (h : csvSpecial c = false) :
    (c == ',') = false ∧ (c == '"') = false ∧ (c == '\n') = false := by
  simp only [csvSpecial, Bool.or_eq_false_iff] at h
  exact ⟨h.1.1.1, h.1.1.2, h.1.2⟩

theorem parseCsvGo_raw (s : List Char) (hs : ∀ c ∈ s, csvSpecial c = false)
    (cell : List Char) (row : List (List Char)) (rows : List (List (List Char)))
    (rest : List Char) :
    parseCsvGo CsvState.inRaw cell row rows (s ++ rest) =
      parseCsvGo CsvState.inRaw (cell ++ s) row rows rest := by
  induction s generalizing cell with
  | nil => simp
  | cons c t ih =>
    obtain ⟨h1, h2, h3⟩ := csvSpecial_false (hs c (List.mem_cons_self c t))
    have ht : ∀ x ∈ t, csvSpecial x = false :=
      fun x hx => hs x (List.mem_cons_of_mem c hx)
    simp only [List.cons_append, List.append_eq, parseCsvGo, h1, h2, h3,
      Bool.false_eq_true, if_false]
    rw [ih ht]
    simp

theorem parseCsvGo_quoted (s cell : List Char) (row : List (List Char))
    (rows : List (List (List Char))) (rest : List Char) :
    parseCsvGo CsvState.inQuoted cell row rows
        (escapeChars s ++ ('"' :: rest)) =
      parseCsvGo CsvState.afterQuote (cell ++ s) row rows rest := by
  induction s generalizing cell with
  | nil => simp [escapeChars, parseCsvGo]
  | cons c t ih =>
    by_cases hq : c = '"'
    · subst hq
      simp only [escapeChars, beq_self_eq_true, if_true, List.cons_append,
        List.append_eq, parseCsvGo]
      rw [ih]
      simp
    · have hq2 : (c == '"') = false := by simp [hq]
      simp only [escapeChars, hq2, Bool.false_eq_true, if_false,
        List.cons_append, List.append_eq, parseCsvGo]
      rw [ih]
      simp

theorem parseCsvGo_cell_comma (v : List Char) (row : List (List Char))
    (rows : List (List (List Char))) (rest : List Char) :
    parseCsvGo CsvState.atStart [] row rows (encodeCell v ++ (',' :: rest)) =
      parseCsvGo CsvState.atStart [] (row ++ [v]) rows rest := by
  by_cases hq : needsQuoting v = true
  · simp only [encodeCell, hq, if_true, List.cons_append, List.append_assoc,
      List.singleton_append, parseCsvGo, beq_self_eq_true, if_true]
    rw [parseCsvGo_quoted]
    simp [parseCsvGo]
  · have hv : ∀ c ∈ v, csvSpecial c = false := by
      simpa [needsQuoting, List.any_eq_true] using hq
    match v with
    | [] => simp [encodeCell, needsQuoting, parseCsvGo]
    | c :: t =>
      obtain ⟨h1, h2, h3⟩ := csvSpecial_false (hv c (List.mem_cons_self c t))
      have ht : ∀ x ∈ t, csvSpecial x = false :=
        fun x hx => hv x (List.mem_cons_of_mem c hx)
      rw [encodeCell, if_neg (by simp [hq])]
      simp only [List.cons_append, List.append_eq, parseCsvGo, h1, h2, h3,
        Bool.false_eq_true, if_false]
      rw [parseCsvGo_raw t ht]
      simp [parseCsvGo]

theorem parseCsvGo_cell_newline (v : List Char) (row : List (List Char))
    (rows : List (List (List Char))) (rest : List Char) :
    parseCsvGo CsvState.atStart [] row rows (encodeCell v ++ ('\n' :: rest)) =
      parseCsvGo CsvState.atStart [] [] (rows ++ [row ++ [v]]) rest := by
  by_cases hq : needsQuoting v = true
  · simp only [encodeCell, hq, if_true, List.cons_append, List.append_assoc,
      List.singleton_append, parseCsvGo, beq_self_eq_true, if_true]
    rw [parseCsvGo_quoted]
    simp [parseCsvGo]
  · have hv : ∀ c ∈ v, csvSpecial c = false := by
      simpa [needsQuoting, List.any_eq_true] using hq
    match v with
    | [] => simp [encodeCell, needsQuoting, parseCsvGo]
    | c :: t =>
      obtain ⟨h1, h2, h3⟩ := csvSpecial_false (hv c (List.mem_cons_self c t))
      have ht : ∀ x ∈ t, csvSpecial x = false :=
        fun x hx => hv x (List.mem_cons_of_mem c hx)
      rw [encodeCell, if_neg (by simp [hq])]
      simp only [List.cons_append, List.append_eq, parseCsvGo, h1, h2, h3,
        Bool.false_eq_true, if_false]
      rw [parseCsvGo_raw t ht]
      simp [parseCsvGo]

theorem parseCsvGo_row (v : List Char) (vs : List (List Char))
    (row : List (List Char)) (rows : List (List (List Char)))
    (rest : List Char) :
    parseCsvGo CsvState.atStart [] row rows
        (encodeRow (v :: vs) ++ ('\n' :: rest)) =
      parseCsvGo CsvState.atStart [] [] (rows ++ [row ++ (v :: vs)]) rest := by
  induction vs generalizing v row with
  | nil =>
    rw [show encodeRow [v] = encodeCell v from rfl, parseCsvGo_cell_newline]
  | cons w ws ih =>
    rw [show encodeRow (v :: w :: ws) = encodeCell v ++ ',' :: encodeRow (w :: ws)
      from rfl]
    rw [List.append_assoc, List.cons_append, parseCsvGo_cell_comma, ih]
    simp

theorem parseCsv_encode (rs : List (List (List Char)))
    (hne : ∀ r ∈ rs, r ≠ []) (rows : List (List (List Char))) :
    parseCsvGo CsvState.atStart [] [] rows (encodeCsv rs) =
      some (rows ++ rs) := by
  induction rs generalizing rows with
  | nil => simp [encodeCsv, parseCsvGo]
  | cons r rest ih =>
    have hrest : ∀ x ∈ rest, x ≠ [] :=
      fun x hx => hne x (List.mem_cons_of_mem r hx)
    match r, hne r (List.mem_cons_self r rest) with
    | v :: vs, _ =>
      rw [show encodeCsv ((v :: vs) :: rest) =
        encodeRow (v :: vs) ++ ('\n' :: encodeCsv rest) from rfl]
      rw [parseCsvGo_row, ih hrest]
      simp

/-! ## Lemmas about `fetch_game_ids_from_api` -/

theorem pageRecords_truthy {p : ListPayload} {r : BasicRecord}
    (h : r ∈ pageRecords p) : truthyId r.UniverseId = true := by
  simp only [pageRecords, List.mem_filterMap] at h
  obtain ⟨g, _, hr⟩ := h
  by_cases ht : truthyId g.universeId = true
  · rw [if_pos ht] at hr
    cases hr
    simpa [mkBasicRecord] using ht
  · rw [if_neg ht] at hr
    cases hr

theorem fetchIdsLoop_truthy (oracle : Nat → ListResponse) (max_games : Nat) :
    ∀ (fuel call : Nat) (acc res : List BasicRecord),
      fetchIdsLoop oracle max_games fuel call acc = some res →
      (∀ r ∈ acc, truthyId r.UniverseId = true) →
      ∀ r ∈ res, truthyId r.UniverseId = true := by
  intro fuel
  induction fuel with
  | zero =>
    intro call acc res h
    simp [fetchIdsLoop] at h
  | succ n ih =>
    intro call acc res h hacc
    rw [fetchIdsLoop] at h
    split at h
    · split at h
      · cases h
        exact hacc
      · split at h
        · cases h
          exact hacc
        · split at h
          · intro r hr
            refine ih (call + 1) _ res h ?_ r hr
            intro x hx
            rcases List.mem_append.mp hx with hx | hx
            · exact hacc x hx
            · exact pageRecords_truthy hx
          · cases h
            intro r hr
            rcases List.mem_append.mp hr with hr | hr
            · exact hacc r hr
            · exact pageRecords_truthy hr
    · cases h
      exact hacc

/-! ## Lemmas about `fetch_game_details` -/

theorem fetch_game_details_batches (oracle : Nat → DetailResponse)
    (universe_ids : List (Option Int)) :
    ∀ (fuel call : Nat) (log : List (List (Option Int)))
      (r : Option (List DetailRecord)),
      fetch_game_details oracle universe_ids fuel call = some (log, r) →
      log ≠ [] ∧ ∀ b ∈ log, b = universe_ids := by
  intro fuel
  induction fuel with
  | zero =>
    intro call log r h
    simp [fetch_game_details] at h
  | succ n ih =>
    intro call log r h
    rw [fetch_game_details] at h
    split at h
    · rw [Option.map_eq_some'] at h
      obtain ⟨⟨log2, r2⟩, h2, heq⟩ := h
      obtain ⟨-, hall⟩ := ih (call + 1) log2 r2 h2
      cases heq
      refine ⟨by simp, ?_⟩
      intro b hb
      rcases List.mem_cons.mp hb with hb | hb
      · exact hb
      · exact hall b hb
    · split at h
      · cases h
        exact ⟨by simp, by intro b hb; simpa using hb⟩
      · cases h
        exact ⟨by simp, by intro b hb; simpa using hb⟩

theorem fetch_game_details_terminates (oracle : Nat → DetailResponse)
    (universe_ids : List (Option Int)) :
    ∀ (fuel call : Nat), (∃ j, j < fuel ∧ (oracle (call + j)).status ≠ 429) →
      ∃ r, fetch_game_details oracle universe_ids fuel call = some r := by
  intro fuel
  induction fuel with
  | zero =>
    intro call ⟨j, hj, _⟩
    exact absurd hj (Nat.not_lt_zero j)
  | succ n ih =>
    intro call ⟨j, hj, hne⟩
    rw [fetch_game_details]
    by_cases h429 : ((oracle call).status == 429) = true
    · rw [if_pos h429]
      have hj0 : j ≠ 0 := by
        intro h0
        subst h0
        exact hne (by simpa using beq_iff_eq.mp h429)
      obtain ⟨j2, rfl⟩ : ∃ j2, j = j2 + 1 := ⟨j - 1, by omega⟩
      obtain ⟨r, hr⟩ := ih (call + 1)
        ⟨j2, by omega, by rw [show call + 1 + j2 = call + (j2 + 1) by omega]; exact hne⟩
      rw [hr]
      exact ⟨_, rfl⟩
    · rw [if_neg h429]
      by_cases h200 : ((oracle call).status != 200) = true
      · rw [if_pos h200]
        exact ⟨_, rfl⟩
      · rw [if_neg h200]
        exact ⟨_, rfl⟩

theorem fetch_game_details_429_forever (oracle : Nat → DetailResponse)
    (universe_ids : List (Option Int))
    (h : ∀ k, (oracle k).status = 429) :
    ∀ fuel call, fetch_game_details oracle universe_ids fuel call = none := by
  intro fuel
  induction fuel with
  | zero => intro call; rfl
  | succ n ih =>
    intro call
    rw [fetch_game_details, if_pos (by simp [h call]), ih (call + 1)]
    rfl

/-! ## Lemmas about `scrape_games` -/

theorem batches_nil : batches [] = [] := by
  rw [batches]

theorem batches_cons (x : Option Int) (xs : List (Option Int)) :
    batches (x :: xs) = (x :: xs.take 49) :: batches (xs.drop 49) := by
  rw [batches]
  norm_num [batch_size]

theorem batches_sizes_120 (l : List (Option Int)) (hl : l.length = 120) :
    (batches l).map List.length = [50, 50, 20] := by
  obtain ⟨a1, t1, rfl⟩ := List.exists_cons_of_ne_nil
    (l := l) (by intro h; rw [h] at hl; simp at hl)
  have e1 : t1.length = 119 := by simpa using hl
  obtain ⟨a2, t2, h2⟩ := List.exists_cons_of_ne_nil
    (l := t1.drop 49) (by
      intro h
      have := congrArg List.length h
      simp [List.length_drop, e1] at this)
  have e2 : t2.length = 69 := by
    have := congrArg List.length h2
    simp [List.length_drop, e1] at this
    omega
  obtain ⟨a3, t3, h3⟩ := List.exists_cons_of_ne_nil
    (l := t2.drop 49) (by
      intro h
      have := congrArg List.length h
      simp [List.length_drop, e2] at this)
  have e3 : t3.length = 19 := by
    have := congrArg List.length h3
    simp [List.length_drop, e2] at this
    omega
  have e4 : t3.drop 49 = [] :=
    List.length_eq_zero.mp (by simp [List.length_drop, e3])
  rw [batches_cons, h2, batches_cons, h3, batches_cons, e4, batches_nil]
  simp [List.length_take, e1, e2, e3]

theorem scrapeGo_eq (fetch : List (Option Int) → Option (List DetailRecord))
    (game_data : List BasicRecord) :
    ∀ (bs log : List (List (Option Int))) (res : List MergedRecord),
      scrapeGo fetch game_data bs = some (log, res) →
      log = bs ∧
      res = bs.flatMap
        (fun b => ((fetch b).getD []).filterMap (mergeDetail game_data)) := by
  intro bs
  induction bs with
  | nil =>
    intro log res h
    rw [scrapeGo] at h
    cases h
    exact ⟨rfl, rfl⟩
  | cons b bs ih =>
    intro log res h
    rw [scrapeGo] at h
    split at h
    · cases h
    · rename_i batch_data hf
      rw [Option.map_eq_some'] at h
      obtain ⟨⟨log2, res2⟩, h2, heq⟩ := h
      obtain ⟨rfl, rfl⟩ := ih log2 res2 h2
      cases heq
      refine ⟨rfl, ?_⟩
      rw [List.flatMap_cons, hf]
      rfl

theorem scrapeGo_total (fetch : List (Option Int) → Option (List DetailRecord))
    (game_data : List BasicRecord) :
    ∀ bs : List (List (Option Int)),
      (∀ b ∈ bs, (fetch b).isSome = true) →
      ∃ res, scrapeGo fetch game_data bs = some (bs, res) := by
  intro bs
  induction bs with
  | nil => intro _; exact ⟨[], rfl⟩
  | cons b bs ih =>
    intro hall
    obtain ⟨ds, hds⟩ :=
      Option.isSome_iff_exists.mp (hall b (List.mem_cons_self b bs))
    obtain ⟨res, hres⟩ := ih (fun x hx => hall x (List.mem_cons_of_mem b hx))
    refine ⟨ds.filterMap (mergeDetail game_data) ++ res, ?_⟩
    rw [scrapeGo, hds, hres]
    rfl

theorem mergeDetail_spec {game_data : List BasicRecord} {d : DetailRecord}
    {m : MergedRecord} (h : mergeDetail game_data d = some m) :
    (m.UniverseId = d.UniverseId ∧ m.Name = d.Name ∧ m.Genre = d.Genre ∧
     m.CreatedDate = d.CreatedDate ∧ m.UpdatedDate = d.UpdatedDate ∧
     m.MaxPlayers = d.MaxPlayers ∧
     m.PlayabilityStatus = d.PlayabilityStatus ∧
     m.IsExperimental = d.IsExperimental ∧ m.Price = d.Price ∧
     m.Visits = d.Visits ∧ m.Developer = d.Developer ∧
     m.ThumbnailUrl = d.ThumbnailUrl) ∧
    ∃ pre basic post, game_data = pre ++ basic :: post ∧
      basic.UniverseId = d.UniverseId ∧
      (∀ b ∈ pre, b.UniverseId ≠ d.UniverseId) ∧
      m.PlayerCount = basic.PlayerCount ∧ m.Upvotes = basic.Upvotes ∧
      m.Downvotes = basic.Downvotes := by
  rw [mergeDetail] at h
  split at h
  · cases h
  · rename_i basic hfind
    cases h
    obtain ⟨hbeq, pre, post, hsplit, hpre⟩ := List.find?_eq_some.mp hfind
    refine ⟨⟨rfl, rfl, rfl, rfl, rfl, rfl, rfl, rfl, rfl, rfl, rfl, rfl⟩,
      pre, basic, post, hsplit, by simpa using hbeq, ?_, rfl, rfl, rfl⟩
    intro b hb
    simpa using hpre b hb

/-! ## Claim theorems -/

/-- C1: the non-429 non-success and JSON-parse-failure branches of
`fetch_game_details` do return an empty sequence, but a 200 response whose
parsed body has no "data" key makes the function return Python `None`
(the inner `none`), and `scrape_games` then crashes iterating it (the run is
`none`), contradicting the claim that an empty sequence is returned and that
no failure is ever raised. -/
theorem C1_missing_data_key_returns_none_and_crashes :
    fetch_game_details detOracle500 [some 1] 1 0 = some ([[some 1]], some []) ∧
    fetch_game_details detOracleBadJson [some 1] 1 0 =
      some ([[some 1]], some []) ∧
    fetch_game_details detOracleNoData [some 1] 1 0 = some ([[some 1]], none) ∧
    scrape_games crashFetch [basicA] = none := by
  refine ⟨rfl, rfl, rfl, ?_⟩
  rw [scrape_games]
  simp [batches_cons, batches_nil, scrapeGo, crashFetch]

/-- C2: every request `fetch_game_details` issues carries the identical batch
of ids, and under responses 429, 429, 200 the endpoint is invoked exactly 3
times (the request log has three entries) with the result equal to the
mapping of the 200 payload. -/
theorem C2_retry_429_identical_batch :
    (∀ (oracle : Nat → DetailResponse) (universe_ids : List (Option Int))
       (fuel call : Nat) (log : List (List (Option Int)))
       (r : Option (List DetailRecord)),
        fetch_game_details oracle universe_ids fuel call = some (log, r) →
        log ≠ [] ∧ ∀ b ∈ log, b = universe_ids) ∧
    fetch_game_details detOracle429twice [some 1] 3 0 =
      some ([[some 1], [some 1], [some 1]], some [mkDetailRecord detGame1]) :=
  ⟨fun oracle ids fuel call log r h =>
    fetch_game_details_batches oracle ids fuel call log r h, rfl⟩

/-- C2 witness: the general part instantiated at the 429-429-200 oracle. -/
theorem C2_retry_429_identical_batch_witness :
    ([[some 1], [some 1], [some 1]] : List (List (Option Int))) ≠ [] ∧
    ([some 1] : List (Option Int)) = [some 1] :=
  ⟨(C2_retry_429_identical_batch.1 detOracle429twice [some 1] 3 0
      [[some 1], [some 1], [some 1]] (some [mkDetailRecord detGame1]) rfl).1,
   (C2_retry_429_identical_batch.1 detOracle429twice [some 1] 3 0
      [[some 1], [some 1], [some 1]] (some [mkDetailRecord detGame1]) rfl).2
      [some 1] (List.mem_cons_self _ _)⟩

/-- C3 (counterexample): the item `zeroIdGame` has a non-null identifier
(the integer 0), yet `fetch_game_ids_from_api` appends no record for it —
the code tests Python truthiness, not non-nullness, so id 0 is dropped. -/
theorem C3_nonnull_zero_id_excluded :
    zeroIdGame.universeId ≠ none ∧
    zeroIdGame ∈ itemsOf zeroIdPayload ∧
    pageRecords zeroIdPayload = [] ∧
    fetch_game_ids_from_api listOracleZero 10 1 = some [] := by
  refine ⟨by simp [zeroIdGame], by simp [itemsOf, zeroIdPayload], rfl, rfl⟩

/-- C3 (amended): for every listing payload, a BasicRecord is appended for
exactly the items whose identifier is truthy (non-null and non-zero), with
defaults applied, and the result of `fetch_game_ids_from_api` never contains
a record whose identifier was null or zero. -/
theorem C3_truthy_id_filter :
    (∀ (p : ListPayload) (r : BasicRecord),
        r ∈ pageRecords p ↔
          ∃ g ∈ itemsOf p, truthyId g.universeId = true ∧
            r = mkBasicRecord g) ∧
    (∀ (oracle : Nat → ListResponse) (max_games fuel : Nat)
       (res : List BasicRecord),
        fetch_game_ids_from_api oracle max_games fuel = some res →
        ∀ r ∈ res, r.UniverseId ≠ none ∧ r.UniverseId ≠ some 0) := by
  constructor
  · intro p r
    rw [pageRecords, List.mem_filterMap]
    constructor
    · rintro ⟨g, hg, hr⟩
      by_cases ht : truthyId g.universeId = true
      · rw [if_pos ht] at hr
        cases hr
        exact ⟨g, hg, ht, rfl⟩
      · rw [if_neg ht] at hr
        cases hr
    · rintro ⟨g, hg, ht, rfl⟩
      exact ⟨g, hg, by rw [if_pos ht]⟩
  · intro oracle max_games fuel res h r hr
    rw [fetch_game_ids_from_api, Option.map_eq_some'] at h
    obtain ⟨l, hl, rfl⟩ := h
    have hrl : r ∈ l := List.mem_of_mem_take hr
    have ht := fetchIdsLoop_truthy oracle max_games fuel 0 [] l hl
      (by simp) r hrl
    rcases hU : r.UniverseId with _ | n
    · rw [hU] at ht
      simp [truthyId] at ht
    · refine ⟨by simp [hU], ?_⟩
      rw [hU] at ht
      simp only [truthyId, bne_iff_ne, ne_eq] at ht
      simp [hU, ht]

/-- C3 witness: the amended statements instantiated at `payload5` and at a
run of `fetch_game_ids_from_api` over it. -/
theorem C3_truthy_id_filter_witness :
    (mkBasicRecord game5 ∈ pageRecords payload5 ↔
      ∃ g ∈ itemsOf payload5, truthyId g.universeId = true ∧
        mkBasicRecord game5 = mkBasicRecord g) ∧
    ((mkBasicRecord game5).UniverseId ≠ none ∧
      (mkBasicRecord game5).UniverseId ≠ some 0) :=
  ⟨C3_truthy_id_filter.1 payload5 (mkBasicRecord game5),
   C3_truthy_id_filter.2 listOracle5 10 1 [mkBasicRecord game5] rfl
     (mkBasicRecord game5) (List.mem_cons_self _ _)⟩

/-- C4: a MergedRecord exists only for ids present both in some fetched
detail batch and in the basic list; with basic ids [1, 2] and a detail
response covering only id 1, the merge produces exactly one MergedRecord. -/
theorem C4_merged_only_for_matched_ids :
    (∀ (fetch : List (Option Int) → Option (List DetailRecord))
       (game_data : List BasicRecord)
       (log : List (List (Option Int))) (res : List MergedRecord),
        scrape_games fetch game_data = some (log, res) →
        ∀ m ∈ res,
          (∃ basic ∈ game_data, basic.UniverseId = m.UniverseId) ∧
          ∃ b ∈ log, ∃ ds, fetch b = some ds ∧
            ∃ d ∈ ds, d.UniverseId = m.UniverseId) ∧
    scrape_games fetchOnly1 [basicA, basicB] =
      some ([[some 1, some 2]], [merged1]) := by
  constructor
  · intro fetch gd log res h m hm
    obtain ⟨rfl, rfl⟩ := scrapeGo_eq fetch gd _ log res h
    rw [List.mem_flatMap] at hm
    obtain ⟨b, hb, hmb⟩ := hm
    rw [List.mem_filterMap] at hmb
    obtain ⟨d, hd, hmerge⟩ := hmb
    obtain ⟨hframe, pre, basic, post, hsplit, hid, -, -⟩ :=
      mergeDetail_spec hmerge
    have hmU : m.UniverseId = d.UniverseId := hframe.1
    constructor
    · exact ⟨basic, by rw [hsplit]; simp, hid.trans hmU.symm⟩
    · cases hfb : fetch b with
      | none =>
        rw [hfb] at hd
        simp at hd
      | some ds =>
        rw [hfb] at hd
        exact ⟨b, hb, ds, hfb, d, by simpa using hd, hmU.symm⟩
  · rw [scrape_games]
    simp [batches_cons, batches_nil]
    rw [scrapeGo, scrapeGo]
    simp [fetchOnly1, mergeDetail, detail1, basicA, basicB, merged1,
      List.find?]

/-- C4 witness: the invariant instantiated at the concrete run with basic
ids [1, 2] and a detail response covering only id 1. -/
theorem C4_merged_only_for_matched_ids_witness :
    (∃ basic ∈ [basicA, basicB], basic.UniverseId = merged1.UniverseId) ∧
    ∃ b ∈ [[some 1, some 2]], ∃ ds, fetchOnly1 b = some ds ∧
      ∃ d ∈ ds, d.UniverseId = merged1.UniverseId :=
  C4_merged_only_for_matched_ids.1 fetchOnly1 [basicA, basicB]
    [[some 1, some 2]] [merged1] C4_merged_only_for_matched_ids.2
    merged1 (List.mem_cons_self _ _)

/-- C5: whenever `fetch_game_ids_from_api` returns, the result has length at
most `max_games`. -/
theorem C5_fetchIds_length_le (oracle : Nat → ListResponse)
    (max_games fuel : Nat) (res : List BasicRecord)
    (h : fetch_game_ids_from_api oracle max_games fuel = some res) :
    res.length ≤ max_games := by
  rw [fetch_game_ids_from_api, Option.map_eq_some'] at h
  obtain ⟨l, -, rfl⟩ := h
  rw [List.length_take]
  exact min_le_left _ _

/-- C5 witness: the bound instantiated at a failing listing oracle. -/
theorem C5_fetchIds_length_le_witness :
    fetch_game_ids_from_api listOracleFail 3 1 = some [] ∧
    ([] : List BasicRecord).length ≤ 3 :=
  ⟨rfl, C5_fetchIds_length_le listOracleFail 3 1 [] rfl⟩

/-- C6: for 120 basic records and a detail fetcher that always answers,
`scrape_games` issues exactly one detail-fetch call per batch — 3 calls in
total, with batch sizes [50, 50, 20]. -/
theorem C6_batching_120_ids (game_data : List BasicRecord)
    (fetch : List (Option Int) → Option (List DetailRecord))
    (hlen : game_data.length = 120)
    (hfetch : ∀ b, (fetch b).isSome = true) :
    ∃ res, scrape_games fetch game_data =
      some (batches (game_data.map (fun g => g.UniverseId)), res) ∧
      (batches (game_data.map (fun g => g.UniverseId))).map List.length =
        [50, 50, 20] ∧
      (batches (game_data.map (fun g => g.UniverseId))).length = 3 := by
  obtain ⟨res, hres⟩ := scrapeGo_total fetch game_data
    (batches (game_data.map (fun g => g.UniverseId))) (fun b _ => hfetch b)
  have hsz := batches_sizes_120 (game_data.map (fun g => g.UniverseId))
    (by simp [hlen])
  refine ⟨res, hres, hsz, ?_⟩
  have := congrArg List.length hsz
  simpa using this

/-- C6 witness: the batching property at 120 concrete records. -/
theorem C6_batching_120_ids_witness :
    ∃ res, scrape_games fetchEmpty gd120 =
      some (batches (gd120.map (fun g => g.UniverseId)), res) ∧
      (batches (gd120.map (fun g => g.UniverseId))).map List.length =
        [50, 50, 20] ∧
      (batches (gd120.map (fun g => g.UniverseId))).length = 3 :=
  C6_batching_120_ids gd120 fetchEmpty (by simp [gd120]) (fun b => rfl)

/-- C7: a merged record equals the detail record on all twelve detail
fields, with exactly playerCount/upvotes/downvotes added, copied from the
first basic record whose id matches. -/
theorem C7_merge_frame_and_first_match (game_data : List BasicRecord)
    (d : DetailRecord) (m : MergedRecord)
    (h : mergeDetail game_data d = some m) :
    (m.UniverseId = d.UniverseId ∧ m.Name = d.Name ∧ m.Genre = d.Genre ∧
     m.CreatedDate = d.CreatedDate ∧ m.UpdatedDate = d.UpdatedDate ∧
     m.MaxPlayers = d.MaxPlayers ∧
     m.PlayabilityStatus = d.PlayabilityStatus ∧
     m.IsExperimental = d.IsExperimental ∧ m.Price = d.Price ∧
     m.Visits = d.Visits ∧ m.Developer = d.Developer ∧
     m.ThumbnailUrl = d.ThumbnailUrl) ∧
    ∃ pre basic post, game_data = pre ++ basic :: post ∧
      basic.UniverseId = d.UniverseId ∧
      (∀ b ∈ pre, b.UniverseId ≠ d.UniverseId) ∧
      m.PlayerCount = basic.PlayerCount ∧ m.Upvotes = basic.Upvotes ∧
      m.Downvotes = basic.Downvotes :=
  mergeDetail_spec h

/-- C7 witness: the frame property at `detail1` merged over
`[basicA, basicB]`. -/
theorem C7_merge_frame_and_first_match_witness :
    ((merged1.UniverseId = detail1.UniverseId ∧
      merged1.Name = detail1.Name ∧ merged1.Genre = detail1.Genre ∧
      merged1.CreatedDate = detail1.CreatedDate ∧
      merged1.UpdatedDate = detail1.UpdatedDate ∧
      merged1.MaxPlayers = detail1.MaxPlayers ∧
      merged1.PlayabilityStatus = detail1.PlayabilityStatus ∧
      merged1.IsExperimental = detail1.IsExperimental ∧
      merged1.Price = detail1.Price ∧ merged1.Visits = detail1.Visits ∧
      merged1.Developer = detail1.Developer ∧
      merged1.ThumbnailUrl = detail1.ThumbnailUrl) ∧
    ∃ pre basic post, [basicA, basicB] = pre ++ basic :: post ∧
      basic.UniverseId = detail1.UniverseId ∧
      (∀ b ∈ pre, b.UniverseId ≠ detail1.UniverseId) ∧
      merged1.PlayerCount = basic.PlayerCount ∧
      merged1.Upvotes = basic.Upvotes ∧
      merged1.Downvotes = basic.Downvotes) :=
  C7_merge_frame_and_first_match [basicA, basicB] detail1 merged1 rfl

/-- C8: `fetch_game_details` terminates whenever some response in the
oracle's sequence is non-429 (a sufficient fuel exists), and under an oracle
answering 429 on every call it never terminates (no fuel suffices). -/
theorem C8_termination_iff_non429 :
    (∀ (oracle : Nat → DetailResponse) (universe_ids : List (Option Int))
       (n : Nat),
        (oracle n).status ≠ 429 →
        ∃ fuel r, fetch_game_details oracle universe_ids fuel 0 = some r) ∧
    (∀ (oracle : Nat → DetailResponse) (universe_ids : List (Option Int)),
        (∀ k, (oracle k).status = 429) →
        ∀ fuel call,
          fetch_game_details oracle universe_ids fuel call = none) := by
  constructor
  · intro oracle ids n hne
    obtain ⟨r, hr⟩ := fetch_game_details_terminates oracle ids (n + 1) 0
      ⟨n, Nat.lt_succ_self n, by simpa using hne⟩
    exact ⟨n + 1, r, hr⟩
  · intro oracle ids h fuel call
    exact fetch_game_details_429_forever oracle ids h fuel call

/-- C8 witness: termination under an all-200 oracle, divergence under an
all-429 oracle. -/
theorem C8_termination_iff_non429_witness :
    (∃ fuel r, fetch_game_details detOracle200 [some 1] fuel 0 = some r) ∧
    fetch_game_details detOracle429 [some 1] 7 3 = none :=
  ⟨C8_termination_iff_non429.1 detOracle200 [some 1] 0 (by decide),
   C8_termination_iff_non429.2 detOracle429 [some 1] (fun k => rfl) 7 3⟩

/-- C9: re-parsing the serialized CSV of any sequence of merged records
yields the header row followed by exactly one row per record, each holding
that record's rendered field values. -/
theorem C9_csv_round_trip (games_data : List MergedRecord) :
    parseCsv (save_to_csv games_data) =
      some (headerRow :: games_data.map renderMerged) ∧
    (games_data.map renderMerged).length = games_data.length := by
  constructor
  · have hne : ∀ r ∈ headerRow :: games_data.map renderMerged, r ≠ [] := by
      intro r hr
      rcases List.mem_cons.mp hr with rfl | hr
      · simp [headerRow]
      · obtain ⟨m, -, rfl⟩ := List.mem_map.mp hr
        simp [renderMerged]
    rw [save_to_csv, parseCsv, parseCsv_encode _ hne]
    simp
  · rw [List.length_map]

/-- C10: the merged output is grouped by batch in basic-list batch order and,
within a batch, ordered as the detail endpoint returned the records; with
the detail endpoint answering [id 2, id 1] for basics [id 1, id 2], the
output order is [id 2, id 1]. -/
theorem C10_merge_order_follows_detail :
    (∀ (fetch : List (Option Int) → Option (List DetailRecord))
       (game_data : List BasicRecord)
       (log : List (List (Option Int))) (res : List MergedRecord),
        scrape_games fetch game_data = some (log, res) →
        log = batches (game_data.map (fun g => g.UniverseId)) ∧
        res = log.flatMap
          (fun b => ((fetch b).getD []).filterMap (mergeDetail game_data))) ∧
    scrape_games fetchRev [basicA, basicB] =
      some ([[some 1, some 2]], [merged2, merged1]) := by
  constructor
  · intro fetch gd log res h
    obtain ⟨rfl, hres⟩ := scrapeGo_eq fetch gd _ log res h
    exact ⟨rfl, hres⟩
  · rw [scrape_games]
    simp [batches_cons, batches_nil]
    rw [scrapeGo, scrapeGo]
    simp [fetchRev, mergeDetail, detail1, detail2, basicA, basicB, merged1,
      merged2, List.find?]

/-- C10 witness: the order characterization at the concrete reversed-order
detail response. -/
theorem C10_merge_order_follows_detail_witness :
    ([[some 1, some 2]] : List (List (Option Int))) =
      batches ([basicA, basicB].map (fun g => g.UniverseId)) ∧
    [merged2, merged1] =
      ([[some 1, some 2]] : List (List (Option Int))).flatMap
        (fun b => ((fetchRev b).getD []).filterMap
          (mergeDetail [basicA, basicB])) :=
  C10_merge_order_follows_detail.1 fetchRev [basicA, basicB]
    [[some 1, some 2]] [merged2, merged1]
    C10_merge_order_follows_detail.2

end Crawler
